import Mathlib

/-!
Shallow embedding of the rate-limit profile-swap core of the gastown
repository (Go).

Modelling conventions, used throughout:

* Time instants and durations are integers, in the nanosecond units of the
  Go `time` package; `time.Now()` is threaded as an explicit `now`
  parameter.  `minuteNs` is one minute in those units.
* Go strings are modelled as Lean `String`s; slicing and `len` are
  character based, which agrees with the byte-based Go operations on ASCII
  data (all patterns the code matches are ASCII).
* The `(?i)` flag of the Go regular expressions is modelled by mapping the
  subject through `Char.toLower` and matching lower-case patterns, which
  agrees with Go case folding on ASCII data.
* Go `error` values are the inductive `Err`: `Err.errorsNew` embeds an
  `errors.New` sentinel (identified by its message, which is injective for
  the sentinels of this package) and `Err.wrap` embeds
  `fmt.Errorf("...: %w", e)`.
* Fallible Go functions returning `(T, error)` are embedded as
  `Except Err T`.

The repository contains several overlapping variants of the detector and
of the selector (the same package appears at several revisions).  Each
variant is embedded under a namespace recording the file it comes from:
`HandlerFile` is `src/unnamed/part_003` (handler plus a detector variant
whose pattern list has `at capacity`), `DetectorFile` is
`src/unnamed/part_004`, `SelectorFile` is `src/unnamed/part_005`,
`StoreFile` is `src/unnamed/part_006`, and the top-level definitions come
from `src/internal/ratelimit/patterns.go`, `selector.go` and `swapper.go`.
-/

namespace Gastown

/-- One minute in the nanosecond units of Go `time.Duration`. -/
def minuteNs : Int := 60000000000

/-- Go `error` values, as produced by this package: `errors.New` sentinels
and `fmt.Errorf` wrapping. -/
inductive Err where
  | errorsNew (msg : String)
  | wrap (context : String) (inner : Err)
  | canceled
deriving DecidableEq, Repr

/-- Go `errors.Is`: direct equality, else unwrap the `%w` chain. -/
def Err.is : Err → Err → Bool
  | Err.wrap c inner, t => (Err.wrap c inner == t) || inner.is t
  | e, t => e == t

instance {ε α : Type} [DecidableEq ε] [DecidableEq α] : DecidableEq (Except ε α) :=
  fun x y =>
    match x, y with
    | Except.ok a, Except.ok b =>
        if h : a = b then isTrue (by rw [h]) else isFalse (by simp [h])
    | Except.error e, Except.error f =>
        if h : e = f then isTrue (by rw [h]) else isFalse (by simp [h])
    | Except.ok _, Except.error _ => isFalse (by simp)
    | Except.error _, Except.ok _ => isFalse (by simp)

/-- `ErrAllProfilesCooling` from `src/unnamed/part_005` (the same message
is used by `ErrAllProfilesCoolingDown` in `src/internal/ratelimit/selector.go`). -/
def ErrAllProfilesCooling : Err := Err.errorsNew "all profiles are cooling down"

/-- `ErrNoPolicyForRole` from `src/unnamed/part_005`. -/
def ErrNoPolicyForRole : Err := Err.errorsNew "no policy configured for role"

/-- `ErrEmptyFallbackChain` from `src/unnamed/part_005`. -/
def ErrEmptyFallbackChain : Err := Err.errorsNew "fallback chain is empty"

/-! ## String machinery

Executable substring matching used to embed the Go regular expressions of
`patterns.go`.  The two regex features the pattern list uses are literal
search and `.?` (one optional character, which in Go regex matches any
character except a newline). -/

/-- `startsWithChars s sub` is true when `sub` is an initial segment of `s`. -/
def startsWithChars : List Char → List Char → Bool
  | _, [] => true
  | [], _ :: _ => false
  | c :: cs, d :: ds => c == d && startsWithChars cs ds

/-- `hasSubstr s sub` is true when `sub` occurs contiguously inside `s`. -/
def hasSubstr : List Char → List Char → Bool
  | [], sub => startsWithChars [] sub
  | c :: cs, sub => startsWithChars (c :: cs) sub || hasSubstr cs sub

/-- A match of `rate.?limit` (with a separator present) at the head of the
list: the four characters of `rate`, then one separator character
satisfying `sep`, then `limit`.  The separator-free alternative of `.?` is
handled by a plain `hasSubstr _ "ratelimit"` search at the call sites. -/
def rateSepLimitAt (sep : Char → Bool) (s : List Char) : Bool :=
  match s with
  | c1 :: c2 :: c3 :: c4 :: c :: rest =>
      c1 == 'r' && c2 == 'a' && c3 == 't' && c4 == 'e' && sep c &&
        startsWithChars rest ("limit".data)
  | _ => false

/-- A match of `rate.?limit` (with a separator present) anywhere in the list. -/
def hasRateSepLimit (sep : Char → Bool) : List Char → Bool
  | [] => rateSepLimitAt sep []
  | c :: cs => rateSepLimitAt sep (c :: cs) || hasRateSepLimit sep cs

/-- Case folding used to model the `(?i)` regex flag. -/
def lowerStr (l : List Char) : List Char := l.map Char.toLower

/-- Go `strings.TrimSpace` (whitespace trimmed from both ends). -/
def trimSpace (s : String) : String :=
  String.mk (((s.data.dropWhile Char.isWhitespace).reverse.dropWhile Char.isWhitespace).reverse)

/-! ## `src/internal/ratelimit/patterns.go` -/

/-- `ExitCodeRateLimit = 2`, the exit-code sentinel. -/
def ExitCodeRateLimit : Int := 2

/-- `isRateLimitExitCode` from `patterns.go`. -/
def isRateLimitExitCode (exitCode : Int) : Bool :=
  exitCode == ExitCodeRateLimit

/-- `matchesRateLimitPattern` from `patterns.go`: the subject matches one of
the five patterns `(?i)429`, `(?i)rate.?limit`, `(?i)too many requests`,
`(?i)overloaded`, `(?i)capacity`.  The `rate.?limit` regex is expanded into
an occurrence of `ratelimit` or of `rate` + one non-newline character +
`limit`. -/
def matchesRateLimitPattern (stderr : String) : Bool :=
  let l := lowerStr stderr.data
  hasSubstr l ("429".data) ||
  (hasSubstr l ("ratelimit".data) || hasRateSepLimit (fun c => c != '\n') l) ||
  hasSubstr l ("too many requests".data) ||
  hasSubstr l ("overloaded".data) ||
  hasSubstr l ("capacity".data)

/-! ## Shared event record (`RateLimitEvent`, declared both in
`src/unnamed/part_003` and `src/unnamed/part_004` with the same fields) -/

/-- `RateLimitEvent`. -/
structure RateLimitEvent where
  AgentID : String
  Profile : String
  Timestamp : Int
  ExitCode : Int
  ErrorSnippet : String
  Provider : String
deriving DecidableEq, Repr

/-! ## `src/unnamed/part_004` (interface-based detector) -/

/-- `maxSnippetLen` from `src/unnamed/part_004`. -/
def maxSnippetLen : Nat := 500

/-- `detector.Detect` from `src/unnamed/part_004`: classification is
`isRateLimitExitCode(exitCode) || matchesRateLimitPattern(stderr)`; on
detection the event carries the stderr cut to the first 500 characters
(no trimming, no ellipsis) and only timestamp and exit code are set. -/
def detector.Detect (now : Int) (exitCode : Int) (stderr : String) :
    Option RateLimitEvent × Bool :=
  let isRL := isRateLimitExitCode exitCode || matchesRateLimitPattern stderr
  if isRL = false then (none, false)
  else
    let snippet :=
      if stderr.data.length > maxSnippetLen then String.mk (stderr.data.take maxSnippetLen)
      else stderr
    (some { AgentID := "", Profile := "", Timestamp := now, ExitCode := exitCode,
            ErrorSnippet := snippet, Provider := "" }, true)

/-! ## `src/unnamed/part_003` detector variant -/

namespace HandlerFile

/-- `matchesRateLimitPattern` as re-declared in `src/unnamed/part_003`:
same as the `patterns.go` version except for the early return on empty
stderr and the last pattern, which is `(?i)at capacity` instead of
`(?i)capacity`. -/
def matchesRateLimitPattern (stderr : String) : Bool :=
  if stderr = "" then false
  else
    let l := lowerStr stderr.data
    hasSubstr l ("429".data) ||
    (hasSubstr l ("ratelimit".data) || hasRateSepLimit (fun c => c != '\n') l) ||
    hasSubstr l ("too many requests".data) ||
    hasSubstr l ("overloaded".data) ||
    hasSubstr l ("at capacity".data)

/-- `extractSnippet` from `src/unnamed/part_003`: trim whitespace, then cut
to the first 200 characters with a trailing `...` when the cut happened. -/
def extractSnippet (stderr : String) : String :=
  let t := trimSpace stderr
  if t.data.length > 200 then String.mk (t.data.take 200) ++ "..." else t

/-- The `Detector` struct of `src/unnamed/part_003` (agent context set by
`SetAgentInfo`). -/
structure Detector where
  agentID : String
  profile : String
  provider : String
deriving DecidableEq, Repr

/-- `Detector.createEvent` from `src/unnamed/part_003`. -/
def Detector.createEvent (d : Detector) (now : Int) (exitCode : Int)
    (snippet : String) : RateLimitEvent :=
  { AgentID := d.agentID, Profile := d.profile, Provider := d.provider,
    Timestamp := now, ExitCode := exitCode, ErrorSnippet := snippet }

/-- `Detector.Detect` from `src/unnamed/part_003`: exit code checked first,
then the stderr patterns. -/
def Detector.Detect (d : Detector) (now : Int) (exitCode : Int) (stderr : String) :
    Option RateLimitEvent × Bool :=
  if exitCode = ExitCodeRateLimit then
    (some (d.createEvent now exitCode (extractSnippet stderr)), true)
  else if matchesRateLimitPattern stderr then
    (some (d.createEvent now exitCode (extractSnippet stderr)), true)
  else (none, false)

end HandlerFile

/-! ## Spec-side pattern predicates

These follow the wording of the specification: an occurrence of a pattern
is a decomposition of the (case-folded) subject around the pattern.  They
are deliberately stated with existentials rather than with the executable
matchers above, and are related to the matchers by the lemmas that follow. -/

/-- `sub` occurs contiguously in `l`. -/
def occursIn (l sub : List Char) : Prop := ∃ pre post, l = pre ++ (sub ++ post)

/-- `rate`, then one separator character satisfying `P`, then `limit`,
occurring contiguously in `l`. -/
def occursRateSep (P : Char → Prop) (l : List Char) : Prop :=
  ∃ pre c post, P c ∧ l = pre ++ ("rate".data ++ (c :: ("limit".data ++ post)))

/-- The five spec patterns, parameterised by the property `P` required of
the single optional separator character of the `rate … limit` pattern. -/
def specPatternMatchP (P : Char → Prop) (stderr : String) : Prop :=
  occursIn (lowerStr stderr.data) ("429".data) ∨
  (occursIn (lowerStr stderr.data) ("ratelimit".data) ∨
    occursRateSep P (lowerStr stderr.data)) ∨
  occursIn (lowerStr stderr.data) ("too many requests".data) ∨
  occursIn (lowerStr stderr.data) ("overloaded".data) ∨
  occursIn (lowerStr stderr.data) ("capacity".data)

/-- The claim wording of C1: the separator must be non-alphanumeric. -/
def specPatternMatch (stderr : String) : Prop :=
  specPatternMatchP (fun c => c.isAlphanum = false) stderr

/-- C1 as stated: rate-limit iff exit code 2 or one of the five patterns,
with a non-alphanumeric separator in the `rate … limit` pattern. -/
def specIsRateLimit (exitCode : Int) (stderr : String) : Prop :=
  exitCode = 2 ∨ specPatternMatch stderr

/-- The amended wording: the separator may be any single character other
than a newline (the Go regex `.?`). -/
def specPatternMatchAmended (stderr : String) : Prop :=
  specPatternMatchP (fun c => c ≠ '\n') stderr

/-- C1 amended: rate-limit iff exit code 2 or one of the five patterns,
with any non-newline separator in the `rate … limit` pattern. -/
def specIsRateLimitAmended (exitCode : Int) (stderr : String) : Prop :=
  exitCode = 2 ∨ specPatternMatchAmended stderr

/-- The executable matcher parameterised over the separator test; the
`patterns.go` matcher is this scan with the non-newline test. -/
def patternScan (sep : Char → Bool) (stderr : String) : Bool :=
  let l := lowerStr stderr.data
  hasSubstr l ("429".data) ||
  (hasSubstr l ("ratelimit".data) || hasRateSepLimit sep l) ||
  hasSubstr l ("too many requests".data) ||
  hasSubstr l ("overloaded".data) ||
  hasSubstr l ("capacity".data)

theorem matchesRateLimitPattern_eq_patternScan (stderr : String) :
    matchesRateLimitPattern stderr = patternScan (fun c => c != '\n') stderr := rfl

/-! ## Matcher / predicate correspondence -/

theorem startsWithChars_iff (sub : List Char) :
    ∀ s : List Char, startsWithChars s sub = true ↔ ∃ rest, s = sub ++ rest := by
  induction sub with
  | nil => intro s; simp [startsWithChars]
  | cons d ds ih =>
    intro s
    cases s with
    | nil => simp [startsWithChars]
    | cons c cs =>
      rw [startsWithChars, Bool.and_eq_true, beq_iff_eq, ih cs]
      constructor
      · rintro ⟨hcd, rest, hrest⟩
        exact ⟨rest, by simp [hcd, hrest]⟩
      · rintro ⟨rest, hrest⟩
        rw [List.cons_append] at hrest
        obtain ⟨h1, h2⟩ := List.cons_eq_cons.mp hrest
        exact ⟨h1, rest, h2⟩

theorem hasSubstr_iff (sub : List Char) :
    ∀ s : List Char, hasSubstr s sub = true ↔ occursIn s sub := by
  intro s
  induction s with
  | nil =>
    rw [hasSubstr, startsWithChars_iff]
    constructor
    · rintro ⟨rest, hrest⟩
      exact ⟨[], rest, by simp [hrest]⟩
    · rintro ⟨pre, post, h⟩
      obtain ⟨hpre, hsub⟩ := List.append_eq_nil.mp h.symm
      obtain ⟨h2, h3⟩ := List.append_eq_nil.mp hsub
      exact ⟨post, by simp [h2, h3]⟩
  | cons c cs ih =>
    rw [hasSubstr, Bool.or_eq_true, startsWithChars_iff, ih]
    constructor
    · rintro (⟨rest, hrest⟩ | ⟨pre, post, h⟩)
      · exact ⟨[], rest, by simp [hrest]⟩
      · exact ⟨c :: pre, post, by simp [h]⟩
    · rintro ⟨pre, post, h⟩
      cases pre with
      | nil => exact Or.inl ⟨post, by simpa using h⟩
      | cons p ps =>
        rw [List.cons_append] at h
        obtain ⟨_, h2⟩ := List.cons_eq_cons.mp h
        exact Or.inr ⟨ps, post, h2⟩

theorem rateSepLimitAt_iff (sep : Char → Bool) (s : List Char) :
    rateSepLimitAt sep s = true ↔
      ∃ c rest, sep c = true ∧ s = "rate".data ++ (c :: ("limit".data ++ rest)) := by
  have hrate : "rate".data = ['r', 'a', 't', 'e'] := rfl
  rcases s with _ | ⟨c1, _ | ⟨c2, _ | ⟨c3, _ | ⟨c4, _ | ⟨c, rest⟩⟩⟩⟩⟩
  · simp [rateSepLimitAt, hrate]
  · simp [rateSepLimitAt, hrate]
  · simp [rateSepLimitAt, hrate]
  · simp [rateSepLimitAt, hrate]
  · simp [rateSepLimitAt, hrate]
  · rw [rateSepLimitAt]
    simp only [Bool.and_eq_true, beq_iff_eq, startsWithChars_iff ("limit".data) rest, hrate]
    constructor
    · rintro ⟨⟨⟨⟨⟨h1, h2⟩, h3⟩, h4⟩, hc⟩, r2, hr⟩
      exact ⟨c, r2, hc, by simp [h1, h2, h3, h4, hr]⟩
    · rintro ⟨c', r2, hc', hs⟩
      simp only [List.cons_append, List.nil_append, List.cons.injEq] at hs
      obtain ⟨h1, h2, h3, h4, h5, h6⟩ := hs
      subst h5
      exact ⟨⟨⟨⟨⟨h1, h2⟩, h3⟩, h4⟩, hc'⟩, r2, h6⟩

theorem hasRateSepLimit_iff (sep : Char → Bool) :
    ∀ l : List Char, hasRateSepLimit sep l = true ↔
      ∃ pre c post, sep c = true ∧
        l = pre ++ ("rate".data ++ (c :: ("limit".data ++ post))) := by
  intro l
  induction l with
  | nil =>
    rw [hasRateSepLimit, rateSepLimitAt_iff]
    constructor
    · rintro ⟨c, rest, hc, h⟩
      exact ⟨[], c, rest, hc, by rw [List.nil_append]; exact h⟩
    · rintro ⟨pre, c, post, hc, h⟩
      obtain ⟨hpre, h2⟩ := List.append_eq_nil.mp h.symm
      rw [show ("rate".data : List Char) = ['r', 'a', 't', 'e'] from rfl] at h2
      exact absurd h2 (by simp)
  | cons x xs ih =>
    rw [hasRateSepLimit, Bool.or_eq_true, rateSepLimitAt_iff, ih]
    constructor
    · rintro (⟨c, rest, hc, h⟩ | ⟨pre, c, post, hc, h⟩)
      · exact ⟨[], c, rest, hc, by simp [h]⟩
      · exact ⟨x :: pre, c, post, hc, by simp [h]⟩
    · rintro ⟨pre, c, post, hc, h⟩
      cases pre with
      | nil => exact Or.inl ⟨c, post, hc, by simpa using h⟩
      | cons p ps =>
        rw [List.cons_append] at h
        obtain ⟨_, h2⟩ := List.cons_eq_cons.mp h
        exact Or.inr ⟨ps, c, post, hc, h2⟩

theorem patternScan_iff (sep : Char → Bool) (P : Char → Prop)
    (hsep : ∀ c, sep c = true ↔ P c) (stderr : String) :
    patternScan sep stderr = true ↔ specPatternMatchP P stderr := by
  rw [patternScan, specPatternMatchP]
  simp only [Bool.or_eq_true, hasSubstr_iff, hasRateSepLimit_iff, occursRateSep, hsep,
    or_assoc]

theorem detector_Detect_snd (now exitCode : Int) (stderr : String) :
    (detector.Detect now exitCode stderr).2 =
      (isRateLimitExitCode exitCode || matchesRateLimitPattern stderr) := by
  unfold detector.Detect
  rcases h : (isRateLimitExitCode exitCode || matchesRateLimitPattern stderr) with _ | _
  · simp [h]
  · simp [h]

/-! ## Claim C1 -/

/-- C1 counterexample: the code classifies `rateXlimit` (exit code 1) as a
rate limit, because the `.?` of the Go regex `rate.?limit` accepts any
single non-newline separator; the claim as stated requires the separator
to be non-alphanumeric, which `X` is not, and no other pattern matches. -/
theorem detect_classification_counterexample :
    (detector.Detect 0 1 "rateXlimit").2 = true ∧ ¬ specIsRateLimit 1 "rateXlimit" := by
  constructor
  · decide
  · rintro (h2 | hpat)
    · exact absurd h2 (by decide)
    · have hb : patternScan (fun c => !c.isAlphanum) "rateXlimit" = true :=
        (patternScan_iff (fun c => !c.isAlphanum) (fun c => c.isAlphanum = false)
          (fun c => by simp) "rateXlimit").mpr hpat
      exact absurd hb (by decide)

/-- C1 (amended): for every exit code and stderr string, `detector.Detect`
classifies the exit as rate-limit iff the exit code equals 2 or the stderr
matches, case-insensitively, one of the five patterns, where the optional
separator of the `rate … limit` pattern may be any single non-newline
character. -/
theorem detect_classification (now exitCode : Int) (stderr : String) :
    (detector.Detect now exitCode stderr).2 = true ↔
      specIsRateLimitAmended exitCode stderr := by
  rw [detector_Detect_snd, Bool.or_eq_true, specIsRateLimitAmended, specPatternMatchAmended,
    ← patternScan_iff (fun c => c != '\n') (fun c => c ≠ '\n') (fun c => by simp [bne_iff_ne]),
    ← matchesRateLimitPattern_eq_patternScan]
  simp [isRateLimitExitCode, ExitCodeRateLimit]

/-! ## Claim C5 -/

/-- C5 counterexample: with exit code 0 and a stderr containing `429`, the
code does classify the exit as a rate limit (no clean-exit guard exists in
the code). -/
theorem detect_exit_zero_counterexample :
    (detector.Detect 0 0 "429").2 = true := by decide

/-- C5 (amended): with exit code 0 the classification is decided purely by
the stderr patterns: the exit is classified iff stderr matches one of the
five (amended) patterns, so in particular a clean exit with non-matching
stderr is never classified. -/
theorem detect_exit_zero (now : Int) (stderr : String) :
    (detector.Detect now 0 stderr).2 = true ↔ specPatternMatchAmended stderr := by
  rw [detector_Detect_snd, Bool.or_eq_true, specPatternMatchAmended,
    ← patternScan_iff (fun c => c != '\n') (fun c => c ≠ '\n') (fun c => by simp [bne_iff_ne]),
    ← matchesRateLimitPattern_eq_patternScan]
  simp [isRateLimitExitCode, ExitCodeRateLimit]

/-! ## Claim C6 -/

/-- The snippet as the claim words it: whitespace-trimmed stderr, truncated
to its first 500 characters with a trailing `...` appended exactly when
truncation occurs. -/
def specSnippet (stderr : String) : String :=
  let t := trimSpace stderr
  if t.data.length > 500 then String.mk (t.data.take 500) ++ "..." else t

/-- The amended snippet wording: same, with threshold 200 instead of 500. -/
def specSnippetAmended (stderr : String) : String :=
  let t := trimSpace stderr
  if t.data.length > 200 then String.mk (t.data.take 200) ++ "..." else t

/-- A detector with no agent context configured. -/
def d0 : HandlerFile.Detector := { agentID := "", profile := "", provider := "" }

/-- 201 copies of the character `a`. -/
def s201 : String := String.mk (List.replicate 201 'a')

set_option maxRecDepth 40000 in
/-- C6 counterexample: a classified exit whose stderr is 201 characters
long.  The claim predicts the snippet is the untruncated 201-character
string (well under 500), but `extractSnippet` truncates at 200 characters
and appends `...`. -/
theorem snippet_counterexample :
    (HandlerFile.Detector.Detect d0 0 2 s201).2 = true ∧
      (HandlerFile.Detector.Detect d0 0 2 s201).1.map RateLimitEvent.ErrorSnippet ≠
        some (specSnippet s201) := by
  constructor
  · decide
  · decide

/-- C6 (amended): for every exit the part_003 detector classifies as
rate-limit, the emitted event carries the whitespace-trimmed stderr
truncated to its first 200 characters, with a trailing `...` exactly when
truncation occurs. -/
theorem snippet_of_detected (d : HandlerFile.Detector) (now exitCode : Int) (stderr : String)
    (h : (HandlerFile.Detector.Detect d now exitCode stderr).2 = true) :
    (HandlerFile.Detector.Detect d now exitCode stderr).1.map RateLimitEvent.ErrorSnippet =
      some (specSnippetAmended stderr) := by
  have hs : HandlerFile.extractSnippet stderr = specSnippetAmended stderr := rfl
  unfold HandlerFile.Detector.Detect at h ⊢
  by_cases h1 : exitCode = ExitCodeRateLimit
  · simp [h1, HandlerFile.Detector.createEvent, hs]
  · by_cases h2 : HandlerFile.matchesRateLimitPattern stderr = true
    · simp [h1, h2, HandlerFile.Detector.createEvent, hs]
    · rw [if_neg h1, if_neg h2] at h
      exact absurd h (by simp)

/-- Witness for `snippet_of_detected` at a concrete classified exit. -/
theorem snippet_of_detected_witness :
    (HandlerFile.Detector.Detect d0 0 2 " boom ").1.map RateLimitEvent.ErrorSnippet =
      some (specSnippetAmended " boom ") :=
  snippet_of_detected d0 0 2 " boom " (by decide)

/-! ## Association lists

Go maps with string keys are embedded as association lists with
overwrite-on-insert semantics; `lookupA` is map lookup, `insertA` is map
assignment, `eraseA` is `delete`. -/

/-- Map lookup. -/
def lookupA {α : Type} (k : String) : List (String × α) → Option α
  | [] => none
  | (k2, v) :: rest => if k2 = k then some v else lookupA k rest

/-- Map assignment (overwrites an existing binding). -/
def insertA {α : Type} (k : String) (v : α) : List (String × α) → List (String × α)
  | [] => [(k, v)]
  | (k2, v2) :: rest => if k2 = k then (k, v) :: rest else (k2, v2) :: insertA k v rest

/-- Map deletion. -/
def eraseA {α : Type} (k : String) : List (String × α) → List (String × α)
  | [] => []
  | (k2, v2) :: rest => if k2 = k then rest else (k2, v2) :: eraseA k rest

/-! ## `RolePolicy` (declared identically in `src/unnamed/part_005` and
`src/internal/ratelimit/selector.go`) -/

/-- `RolePolicy`. -/
structure RolePolicy where
  FallbackChain : List String
  CooldownMinutes : Int
  Stickiness : String := ""
deriving DecidableEq, Repr

/-! ## `src/unnamed/part_006`: `CooldownStore` -/

namespace StoreFile

/-- `CooldownStore`: profile name to cooldown-until instant. -/
structure CooldownStore where
  cooldowns : List (String × Int)
deriving DecidableEq, Repr

/-- `CooldownStore.MarkCooldown`. -/
def CooldownStore.MarkCooldown (s : CooldownStore) (profile : String) (u : Int) :
    CooldownStore :=
  { cooldowns := insertA profile u s.cooldowns }

/-- `CooldownStore.ClearCooldown`. -/
def CooldownStore.ClearCooldown (s : CooldownStore) (profile : String) : CooldownStore :=
  { cooldowns := eraseA profile s.cooldowns }

/-- `CooldownStore.IsAvailable`: no entry, or `time.Now().After(until)`
(strictly after). -/
def CooldownStore.IsAvailable (s : CooldownStore) (now : Int) (profile : String) : Bool :=
  match lookupA profile s.cooldowns with
  | none => true
  | some u => u < now

/-- `CooldownStore.GetCooldownUntil`: the stored instant, or the zero
instant (modelled as 0) when absent. -/
def CooldownStore.GetCooldownUntil (s : CooldownStore) (profile : String) : Int :=
  match lookupA profile s.cooldowns with
  | none => 0
  | some u => u

end StoreFile

/-! ## `src/internal/ratelimit/selector.go`, first variant:
`ProfileSelector` (stickiness-aware, stateless scan over the chain) -/

set_option linter.unusedVariables false in
/-- `ProfileSelector.SelectNext` from `selector.go`: empty-chain guard,
then the stickiness short-circuit (sticky profile set, available, and
present in the chain), then the first available profile in chain order. -/
def ProfileSelector.SelectNext (store : StoreFile.CooldownStore) (now : Int)
    (policy : RolePolicy) (currentProfile : String) : Except Err String :=
  if policy.FallbackChain.length = 0 then Except.error ErrEmptyFallbackChain
  else if policy.Stickiness != "" && store.IsAvailable now policy.Stickiness &&
      policy.FallbackChain.contains policy.Stickiness then
    Except.ok policy.Stickiness
  else
    match policy.FallbackChain.find? (fun p => store.IsAvailable now p) with
    | some p => Except.ok p
    | none => Except.error ErrAllProfilesCooling

/-! ## `src/unnamed/part_005`: the stateful `Selector` with role policies,
event-driven cooldown marking and round-robin scan -/

namespace SelectorFile

/-- The `Selector` struct of `src/unnamed/part_005`: role policies and the
cooldown map. -/
structure Selector where
  policies : List (String × RolePolicy)
  cooldowns : List (String × Int)
deriving DecidableEq, Repr

/-- `Selector.isCooling`: an entry exists and `time.Now().Before(until)`. -/
def Selector.isCooling (s : Selector) (now : Int) (profile : String) : Bool :=
  match lookupA profile s.cooldowns with
  | none => false
  | some u => now < u

/-- `Selector.IsAvailable`. -/
def Selector.IsAvailable (s : Selector) (now : Int) (profile : String) : Bool :=
  !(s.isCooling now profile)

/-- `Selector.MarkCooldown`. -/
def Selector.MarkCooldown (s : Selector) (profile : String) (u : Int) : Selector :=
  { s with cooldowns := insertA profile u s.cooldowns }

/-- `Selector.ClearCooldown`. -/
def Selector.ClearCooldown (s : Selector) (profile : String) : Selector :=
  { s with cooldowns := eraseA profile s.cooldowns }

/-- `Selector.SetPolicy`. -/
def Selector.SetPolicy (s : Selector) (role : String) (policy : RolePolicy) : Selector :=
  { s with policies := insertA role policy s.policies }

/-- `Selector.GetPolicy`. -/
def Selector.GetPolicy (s : Selector) (role : String) : Option RolePolicy :=
  lookupA role s.policies

/-- The index of `currentProfile` in the chain, or -1 when absent (the
first loop of `SelectNext`). -/
def findIndex (currentProfile : String) (chain : List String) : Int :=
  match chain.findIdx? (fun p => p == currentProfile) with
  | some i => (i : Int)
  | none => -1

/-- `Selector.SelectNext` from `src/unnamed/part_005`.  Policy lookup,
empty-chain guard, cooldown marking of the current profile when an event
is present, then a scan of all chain positions starting after the current
index (modulo the chain length), returning the first profile that is not
cooling.  The returned `Selector` is the post-call state (the cooldown map
write is the only mutation). -/
def Selector.SelectNext (s : Selector) (now : Int) (role currentProfile : String)
    (event : Option RateLimitEvent) : Selector × Except Err String :=
  match lookupA role s.policies with
  | none => (s, Except.error ErrNoPolicyForRole)
  | some policy =>
    if policy.FallbackChain.length = 0 then (s, Except.error ErrEmptyFallbackChain)
    else
      let s1 :=
        if event.isSome && currentProfile != "" then
          { s with cooldowns :=
              insertA currentProfile (now + policy.CooldownMinutes * minuteNs) s.cooldowns }
        else s
      let currentIdx := findIndex currentProfile policy.FallbackChain
      let chainLen := policy.FallbackChain.length
      match (List.range chainLen).findSome? (fun (i : Nat) =>
          let idx := ((currentIdx + 1 + (i : Int)) % ((chainLen : Nat) : Int)).toNat
          let profile := policy.FallbackChain.getD idx ""
          if s1.isCooling now profile then none else some profile) with
      | some p => (s1, Except.ok p)
      | none => (s1, Except.error ErrAllProfilesCooling)

/-- `Selector.CooldownRemaining`. -/
def Selector.CooldownRemaining (s : Selector) (now : Int) (profile : String) : Int :=
  match lookupA profile s.cooldowns with
  | none => 0
  | some u => if u - now < 0 then 0 else u - now

end SelectorFile

/-! ## Helper lemmas for the selector scan -/

theorem findSome?_congr {α β : Type} {f g : α → Option β} :
    ∀ {l : List α}, (∀ a ∈ l, f a = g a) → l.findSome? f = l.findSome? g := by
  intro l
  induction l with
  | nil => intro _; rfl
  | cons a as ih =>
    intro h
    rw [List.findSome?_cons, List.findSome?_cons, h a (List.mem_cons_self a as),
      ih (fun x hx => h x (List.mem_cons_of_mem a hx))]

theorem findSome?_mem {α β : Type} {f : α → Option β} {b : β} :
    ∀ {l : List α}, l.findSome? f = some b → ∃ a ∈ l, f a = some b := by
  intro l
  induction l with
  | nil => intro h; simp [List.findSome?_nil] at h
  | cons a as ih =>
    intro h
    rw [List.findSome?_cons] at h
    cases hfa : f a with
    | some b2 =>
      rw [hfa] at h
      exact ⟨a, List.mem_cons_self a as, by rw [hfa]; exact h⟩
    | none =>
      rw [hfa] at h
      obtain ⟨x, hx, hfx⟩ := ih h
      exact ⟨x, List.mem_cons_of_mem a hx, hfx⟩

theorem emod_toNat_lt (a : Int) {n : Nat} (hn : 0 < n) : (a % (n : Int)).toNat < n := by
  have hne : (n : Int) ≠ 0 := by exact_mod_cast hn.ne'
  have h1 : 0 ≤ a % (n : Int) := Int.emod_nonneg a hne
  have h2 : a % (n : Int) < (n : Int) := Int.emod_lt_of_pos a (by exact_mod_cast hn)
  omega

theorem getD_mem_of_lt {l : List String} {i : Nat} (h : i < l.length) :
    l.getD i "" ∈ l := by
  rw [List.getD_eq_getElem?_getD, List.getElem?_eq_getElem h]
  exact List.getElem_mem h

/-! ## Spec-side scan for claim C2 -/

/-- The selection scan as the claim words it: locate the current profile
at index `i` in the chain (-1 when absent), then visit positions
`(i+1) % N, (i+2) % N, …` through all `N` slots and return the profile at
the first position that is available. -/
def specScanRotation (chain : List String) (avail : String → Bool) (current : String) :
    Option String :=
  (List.range chain.length).findSome? (fun (k : Nat) =>
    (chain.get? (((SelectorFile.findIndex current chain + 1 + (k : Int)) %
      ((chain.length : Nat) : Int)).toNat)).filter avail)

/-- The cooldown-marking step of `Selector.SelectNext` in isolation. -/
def markStep (s : SelectorFile.Selector) (now : Int) (cur : String)
    (ev : Option RateLimitEvent) (policy : RolePolicy) : SelectorFile.Selector :=
  if ev.isSome && cur != "" then
    { s with cooldowns := insertA cur (now + policy.CooldownMinutes * minuteNs) s.cooldowns }
  else s

theorem scan_eq (s1 : SelectorFile.Selector) (now : Int) (chain : List String) (cur : String)
    (hn : chain.length ≠ 0) :
    (List.range chain.length).findSome? (fun (i : Nat) =>
        let idx := ((SelectorFile.findIndex cur chain + 1 + (i : Int)) %
          ((chain.length : Nat) : Int)).toNat
        let profile := chain.getD idx ""
        if s1.isCooling now profile then none else some profile) =
      specScanRotation chain (fun p => !(s1.isCooling now p)) cur := by
  unfold specScanRotation
  apply findSome?_congr
  intro i hi
  have hpos : 0 < chain.length := Nat.pos_of_ne_zero hn
  have hidx : ((SelectorFile.findIndex cur chain + 1 + (i : Int)) %
      ((chain.length : Nat) : Int)).toNat < chain.length := emod_toNat_lt _ hpos
  simp only [List.get?_eq_getElem?, List.getElem?_eq_getElem hidx,
    List.getD_eq_getElem?_getD, Option.getD_some]
  by_cases hc : s1.isCooling now
      (chain[((SelectorFile.findIndex cur chain + 1 + (i : Int)) %
        ((chain.length : Nat) : Int)).toNat]) = true
  · simp [hc, Option.filter]
  · simp [hc, Option.filter]

theorem selectNext_unfold (s : SelectorFile.Selector) (now : Int) (role cur : String)
    (ev : Option RateLimitEvent) (policy : RolePolicy)
    (hpol : lookupA role s.policies = some policy)
    (hlen : policy.FallbackChain.length ≠ 0) :
    SelectorFile.Selector.SelectNext s now role cur ev =
      (markStep s now cur ev policy,
       match specScanRotation policy.FallbackChain
           (fun p => !((markStep s now cur ev policy).isCooling now p)) cur with
       | some p => Except.ok p
       | none => Except.error ErrAllProfilesCooling) := by
  unfold SelectorFile.Selector.SelectNext
  simp only [hpol]
  rw [if_neg hlen]
  rw [show (if ev.isSome && cur != "" then
      { s with cooldowns :=
          insertA cur (now + policy.CooldownMinutes * minuteNs) s.cooldowns }
      else s) = markStep s now cur ev policy from rfl]
  rw [scan_eq (markStep s now cur ev policy) now policy.FallbackChain cur hlen]
  cases specScanRotation policy.FallbackChain
      (fun p => !((markStep s now cur ev policy).isCooling now p)) cur <;> rfl

/-! ## Claim C2 -/

/-- C2: for a role with a registered policy whose chain is non-empty,
`SelectNext` returns exactly the result of the rotation scan described by
the spec (current located at index i, positions (i+1) mod N onward, first
available wins), with availability read from the post-marking state; when
the scan finds nothing it fails with `ErrAllProfilesCooling`; and any
returned profile is a member of the chain. -/
theorem selectNext_rotation (s : SelectorFile.Selector) (now : Int) (role cur : String)
    (ev : Option RateLimitEvent) (policy : RolePolicy)
    (hpol : lookupA role s.policies = some policy)
    (hne : policy.FallbackChain ≠ []) :
    ((SelectorFile.Selector.SelectNext s now role cur ev).2 =
      match specScanRotation policy.FallbackChain
          (fun p => (SelectorFile.Selector.SelectNext s now role cur ev).1.IsAvailable now p)
          cur with
      | some p => Except.ok p
      | none => Except.error ErrAllProfilesCooling) ∧
    (∀ p, (SelectorFile.Selector.SelectNext s now role cur ev).2 = Except.ok p →
      p ∈ policy.FallbackChain) := by
  have hlen : policy.FallbackChain.length ≠ 0 := by
    simpa [List.length_eq_zero] using hne
  rw [selectNext_unfold s now role cur ev policy hpol hlen]
  constructor
  · rfl
  · intro p hp
    simp only at hp
    cases hscan : specScanRotation policy.FallbackChain
        (fun q => !((markStep s now cur ev policy).isCooling now q)) cur with
    | none => rw [hscan] at hp; exact absurd hp (by simp)
    | some q =>
      rw [hscan] at hp
      have hq : q = p := by simpa using hp
      subst hq
      unfold specScanRotation at hscan
      obtain ⟨k, hk, hfk⟩ := findSome?_mem hscan
      obtain ⟨hmem, _⟩ := Option.mem_filter_iff.mp hfk
      exact List.get?_mem (Option.mem_def.mp hmem)

/-- A selector with the literal policy of spec scenario 3: chain
`[A, B, C]`, cooldown 5 minutes, registered for role `polecat`. -/
def selW : SelectorFile.Selector :=
  { policies := [("polecat", { FallbackChain := ["A", "B", "C"], CooldownMinutes := 5 })],
    cooldowns := [] }

/-- Witness for `selectNext_rotation`: with chain `[A, B, C]`, all
available and current `A`, the scan returns `B`. -/
theorem selectNext_rotation_witness :
    (SelectorFile.Selector.SelectNext selW 0 "polecat" "A" none).2 = Except.ok "B" := by
  have h := selectNext_rotation selW 0 "polecat" "A" none
    { FallbackChain := ["A", "B", "C"], CooldownMinutes := 5 } rfl (by decide)
  rw [h.1]
  decide

/-! ## Claim C4 -/

/-- A rate-limit event with all fields zero, used as the non-nil event. -/
def ev0 : RateLimitEvent :=
  { AgentID := "", Profile := "", Timestamp := 0, ExitCode := 0, ErrorSnippet := "",
    Provider := "" }

/-- A selector whose `polecat` policy has a configured cooldown of 0
minutes. -/
def selZ : SelectorFile.Selector :=
  { policies := [("polecat", { FallbackChain := ["A", "B"], CooldownMinutes := 0 })],
    cooldowns := [] }

/-- C4 counterexample: with a configured cooldown of 0 minutes, a non-nil
event and non-empty current profile `A`, `SelectNext` marks `A` as cooling
until `now + 0`, so `A` is immediately available again: there is no
5-minute floor in this selector. -/
theorem cooldown_floor_counterexample :
    (SelectorFile.Selector.SelectNext selZ 0 "polecat" "A" (some ev0)).1.IsAvailable 0 "A"
        = true ∧
      lookupA "A" (SelectorFile.Selector.SelectNext selZ 0 "polecat" "A"
        (some ev0)).1.cooldowns = some 0 := by
  constructor
  · decide
  · decide

/-- C4 (amended): under a registered policy with non-empty chain, the
cooldown map after `SelectNext` is the old map with `current` bound to
`now + policy.cooldownMinutes` exactly when the event is non-nil and
`current` is non-empty, and is unchanged otherwise; the configured
cooldown is used verbatim, so a cooldown of 0 expires immediately. -/
theorem cooldown_marking (s : SelectorFile.Selector) (now : Int) (role cur : String)
    (ev : Option RateLimitEvent) (policy : RolePolicy)
    (hpol : lookupA role s.policies = some policy)
    (hne : policy.FallbackChain ≠ []) :
    (SelectorFile.Selector.SelectNext s now role cur ev).1.cooldowns =
      (if ev.isSome && cur != "" then
        insertA cur (now + policy.CooldownMinutes * minuteNs) s.cooldowns
      else s.cooldowns) := by
  have hlen : policy.FallbackChain.length ≠ 0 := by
    simpa [List.length_eq_zero] using hne
  rw [selectNext_unfold s now role cur ev policy hpol hlen]
  by_cases hc : (ev.isSome && cur != "") = true
  · simp [markStep, hc]
  · simp [markStep, hc]

/-- Witness for `cooldown_marking`: marking happens with a non-nil event
and current profile `A`. -/
theorem cooldown_marking_witness :
    (SelectorFile.Selector.SelectNext selW 0 "polecat" "A" (some ev0)).1.cooldowns =
      insertA "A" (0 + 5 * minuteNs) [] := by
  have h := cooldown_marking selW 0 "polecat" "A" (some ev0)
    { FallbackChain := ["A", "B", "C"], CooldownMinutes := 5 } rfl (by decide)
  rw [h]
  decide

/-! ## Claim C7 -/

/-- The stickiness policy of spec scenario 5: chain `[A, B, C]`,
stickiness `B`. -/
def polS : RolePolicy :=
  { FallbackChain := ["A", "B", "C"], CooldownMinutes := 5, Stickiness := "B" }

/-- A store in which profile `B` cools until instant 1000. -/
def coolB : StoreFile.CooldownStore := { cooldowns := [("B", 1000)] }

/-- A store with no cooldowns. -/
def store0 : StoreFile.CooldownStore := { cooldowns := [] }

/-- C7: whenever the policy stickiness is non-empty, available in the
store and present in the chain, `ProfileSelector.SelectNext` returns it
(before any chain scan, for every current profile); and concretely, with
chain `[A, B, C]`, stickiness `B` cooling and empty current profile, the
result is `A`. -/
theorem stickiness_preference :
    (∀ (store : StoreFile.CooldownStore) (now : Int) (policy : RolePolicy) (cur : String),
      policy.Stickiness ≠ "" →
      store.IsAvailable now policy.Stickiness = true →
      policy.Stickiness ∈ policy.FallbackChain →
      ProfileSelector.SelectNext store now policy cur = Except.ok policy.Stickiness) ∧
    ProfileSelector.SelectNext coolB 0 polS "" = Except.ok "A" := by
  constructor
  · intro store now policy cur h1 h2 h3
    unfold ProfileSelector.SelectNext
    have hlen : ¬(policy.FallbackChain.length = 0) := by
      intro h0
      rw [List.length_eq_zero] at h0
      rw [h0] at h3
      exact absurd h3 (List.not_mem_nil _)
    rw [if_neg hlen]
    have hcond : (policy.Stickiness != "" && store.IsAvailable now policy.Stickiness &&
        policy.FallbackChain.contains policy.Stickiness) = true := by
      simp only [Bool.and_eq_true, bne_iff_ne, ne_eq]
      exact ⟨⟨h1, h2⟩, List.elem_eq_true_of_mem h3⟩
    rw [if_pos hcond]
  · decide

/-- Witness for `stickiness_preference`: all profiles available, current
empty, stickiness `B` is returned. -/
theorem stickiness_preference_witness :
    ProfileSelector.SelectNext store0 0 polS "" = Except.ok "B" := by
  have h := stickiness_preference.1 store0 0 polS "" (by decide) (by decide) (by decide)
  exact h

/-! ## `src/internal/ratelimit/swapper.go`

The injected `SessionOps` controller is embedded as a record of pure
functions returning `Except Err`; a Go context is embedded as the pair of
values `ctx.Err()` takes at the two checkpoints of `Swap` (`none` when not
cancelled).  Besides the `(*SwapResult, error)` return value of the Go
function, the embedding also returns the ordered trace of controller calls
the function makes, so that call-behaviour claims can be stated. -/

/-- `SwapRequest`. -/
structure SwapRequest where
  RigName : String
  PolecatName : String
  OldProfile : String
  NewProfile : String
  HookedWork : String
  Reason : String
deriving DecidableEq, Repr

/-- `SwapEvent` (audit record). -/
structure SwapEvent where
  RigName : String
  PolecatName : String
  OldProfile : String
  NewProfile : String
  Reason : String
  Timestamp : Int
  NewSessionID : String
  HookedWork : String
deriving DecidableEq, Repr

/-- `SwapResult`. -/
structure SwapResult where
  Success : Bool
  NewSessionID : String
  Error : Option Err
  Event : Option SwapEvent
deriving DecidableEq, Repr

/-- The `SessionOps` controller interface. -/
structure SessionOps where
  IsRunning : String → String → Except Err Bool
  Stop : String → String → Bool → Except Err Unit
  Start : String → String → String → Except Err String
  GetHookedWork : String → String → Except Err String
  HookWork : String → String → String → Except Err Unit
  Nudge : String → String → String → Except Err Unit

/-- A Go context, seen through the two `ctx.Err()` reads `Swap` performs:
`err1` is the value at the entry checkpoint, `err2` the value at the
checkpoint between stop and start. -/
structure Ctx where
  err1 : Option Err
  err2 : Option Err
deriving DecidableEq, Repr

/-- The background context (never cancelled). -/
def ctxBackground : Ctx := { err1 := none, err2 := none }

/-- One controller invocation, for the call trace. -/
inductive CallRec where
  | isRunning (rig name : String)
  | stop (rig name : String) (force : Bool)
  | start (rig name profile : String)
  | hookWork (rig name beadID : String)
  | nudge (rig name msg : String)
deriving DecidableEq, Repr

/-- A failed `SwapResult` carrying the given error (the Go code allocates
`&SwapResult{Success: false}` and fills `Error` on each failure path). -/
def failResult (e : Err) : SwapResult :=
  { Success := false, NewSessionID := "", Error := some e, Event := none }

/-- The nudge message of step 5. -/
def nudgeMessage (req : SwapRequest) : String :=
  "Resuming from " ++ req.Reason ++ " swap. Profile changed from " ++ req.OldProfile ++
    " to " ++ req.NewProfile ++ ". Check your hook for work."

/-- Steps 4-6 of `Swapper.Swap` (the context re-check, start, hook, nudge
and event construction), with `t` the trace accumulated so far. -/
def Swapper.swapFromStart (ops : SessionOps) (ctx : Ctx) (now : Int) (req : SwapRequest)
    (t : List CallRec) : SwapResult × Option Err × List CallRec :=
  match ctx.err2 with
  | some e => (failResult e, some e, t)
  | none =>
    match ops.Start req.RigName req.PolecatName req.NewProfile with
    | Except.error e =>
        let w := Err.wrap "starting new session" e
        (failResult w, some w,
          t ++ [CallRec.start req.RigName req.PolecatName req.NewProfile])
    | Except.ok sessionID =>
        let t2 := t ++ [CallRec.start req.RigName req.PolecatName req.NewProfile]
        let t3 :=
          if req.HookedWork != "" then
            t2 ++ [CallRec.hookWork req.RigName req.PolecatName req.HookedWork]
          else t2
        let t4 := t3 ++ [CallRec.nudge req.RigName req.PolecatName (nudgeMessage req)]
        ({ Success := true, NewSessionID := sessionID, Error := none,
           Event := some { RigName := req.RigName, PolecatName := req.PolecatName,
                           OldProfile := req.OldProfile, NewProfile := req.NewProfile,
                           Reason := req.Reason, Timestamp := now,
                           NewSessionID := sessionID, HookedWork := req.HookedWork } },
         none, t4)

/-- `Swapper.Swap` from `swapper.go`: context check, `IsRunning`, `Stop`
when running (fatal on error), context re-check, then `swapFromStart`.
Hook and nudge failures only produce a warning print in the source and do
not influence the result. -/
def Swapper.Swap (ops : SessionOps) (ctx : Ctx) (now : Int) (req : SwapRequest) :
    SwapResult × Option Err × List CallRec :=
  match ctx.err1 with
  | some e => (failResult e, some e, [])
  | none =>
    match ops.IsRunning req.RigName req.PolecatName with
    | Except.error e =>
        let w := Err.wrap "checking session status" e
        (failResult w, some w, [CallRec.isRunning req.RigName req.PolecatName])
    | Except.ok running =>
        let t1 := [CallRec.isRunning req.RigName req.PolecatName]
        if running then
          match ops.Stop req.RigName req.PolecatName false with
          | Except.error e =>
              let w := Err.wrap "stopping old session" e
              (failResult w, some w,
                t1 ++ [CallRec.stop req.RigName req.PolecatName false])
          | Except.ok _ =>
              Swapper.swapFromStart ops ctx now req
                (t1 ++ [CallRec.stop req.RigName req.PolecatName false])
        else Swapper.swapFromStart ops ctx now req t1

theorem swapFromStart_total (ops : SessionOps) (ctx : Ctx) (now : Int) (req : SwapRequest)
    (t : List CallRec) :
    (Swapper.swapFromStart ops ctx now req t).1.Error =
        (Swapper.swapFromStart ops ctx now req t).2.1 ∧
      ((Swapper.swapFromStart ops ctx now req t).1.Success = true ↔
        (Swapper.swapFromStart ops ctx now req t).2.1 = none) := by
  unfold Swapper.swapFromStart
  cases ctx.err2 with
  | some e => simp [failResult]
  | none =>
    cases ops.Start req.RigName req.PolecatName req.NewProfile with
    | error e => simp [failResult]
    | ok sid => simp

/-! ## Claim C10 -/

/-- C10: `Swap` populates a result on every path (it is a total function
into `SwapResult` in this embedding, mirroring that every Go return path
returns the allocated result); the result's `Error` field always equals
the returned error, and the returned error is `none` exactly when the
result's `Success` flag is true. -/
theorem swap_total (ops : SessionOps) (ctx : Ctx) (now : Int) (req : SwapRequest) :
    (Swapper.Swap ops ctx now req).1.Error = (Swapper.Swap ops ctx now req).2.1 ∧
      ((Swapper.Swap ops ctx now req).1.Success = true ↔
        (Swapper.Swap ops ctx now req).2.1 = none) := by
  unfold Swapper.Swap
  cases ctx.err1 with
  | some e => simp [failResult]
  | none =>
    cases ops.IsRunning req.RigName req.PolecatName with
    | error e => simp [failResult]
    | ok running =>
      cases running with
      | false => simpa using swapFromStart_total ops ctx now req _
      | true =>
        cases ops.Stop req.RigName req.PolecatName false with
        | error e => simp [failResult]
        | ok u => simpa using swapFromStart_total ops ctx now req _

/-! ## Claim C3 -/

/-- C3: with an uncancelled context, (a) an `IsRunning` error is fatal and
wrapped; (b) a `Stop` error (session running) is fatal and wrapped, and no
`Start` call appears in the trace; (c) a `Start` error is fatal and
wrapped; (d) once `Start` succeeds, the swap reports success with no
error, for every controller — in particular when `HookWork` or `Nudge`
fail, whose results the code only prints a warning for. -/
theorem swap_error_discipline (ops : SessionOps) (ctx : Ctx) (now : Int) (req : SwapRequest)
    (h1 : ctx.err1 = none) (h2 : ctx.err2 = none) :
    (∀ e, ops.IsRunning req.RigName req.PolecatName = Except.error e →
      (Swapper.Swap ops ctx now req).1.Success = false ∧
      (Swapper.Swap ops ctx now req).1.Error =
        some (Err.wrap "checking session status" e)) ∧
    (∀ e, ops.IsRunning req.RigName req.PolecatName = Except.ok true →
      ops.Stop req.RigName req.PolecatName false = Except.error e →
      (Swapper.Swap ops ctx now req).1.Success = false ∧
      (Swapper.Swap ops ctx now req).1.Error =
        some (Err.wrap "stopping old session" e) ∧
      (∀ r n p, CallRec.start r n p ∉ (Swapper.Swap ops ctx now req).2.2)) ∧
    (∀ e b, ops.IsRunning req.RigName req.PolecatName = Except.ok b →
      (b = true → ops.Stop req.RigName req.PolecatName false = Except.ok ()) →
      ops.Start req.RigName req.PolecatName req.NewProfile = Except.error e →
      (Swapper.Swap ops ctx now req).1.Success = false ∧
      (Swapper.Swap ops ctx now req).1.Error =
        some (Err.wrap "starting new session" e)) ∧
    (∀ b sid, ops.IsRunning req.RigName req.PolecatName = Except.ok b →
      (b = true → ops.Stop req.RigName req.PolecatName false = Except.ok ()) →
      ops.Start req.RigName req.PolecatName req.NewProfile = Except.ok sid →
      (Swapper.Swap ops ctx now req).1.Success = true ∧
      (Swapper.Swap ops ctx now req).1.Error = none) := by
  refine ⟨?_, ?_, ?_, ?_⟩
  · intro e he
    simp [Swapper.Swap, h1, he, failResult]
  · intro e hrun hstop
    simp [Swapper.Swap, h1, hrun, hstop, failResult]
  · intro e b hrun hstop hstart
    cases b with
    | false => simp [Swapper.Swap, Swapper.swapFromStart, h1, h2, hrun, hstart, failResult]
    | true =>
      have hs := hstop rfl
      simp [Swapper.Swap, Swapper.swapFromStart, h1, h2, hrun, hs, hstart, failResult]
  · intro b sid hrun hstop hstart
    cases b with
    | false => simp [Swapper.Swap, Swapper.swapFromStart, h1, h2, hrun, hstart]
    | true =>
      have hs := hstop rfl
      simp [Swapper.Swap, Swapper.swapFromStart, h1, h2, hrun, hs, hstart]

/-- The controller test double of `swapper_test.go`, in its happy-path
configuration: the session is running and every operation succeeds. -/
def mockSessionOps : SessionOps :=
  { IsRunning := fun _ _ => Except.ok true,
    Stop := fun _ _ _ => Except.ok (),
    Start := fun r n _ => Except.ok ("gt-" ++ r ++ "-" ++ n),
    GetHookedWork := fun _ _ => Except.ok "",
    HookWork := fun _ _ _ => Except.ok (),
    Nudge := fun _ _ _ => Except.ok () }

/-- The mock with `HookWork` and `Nudge` failing. -/
def hookFailOps : SessionOps :=
  { mockSessionOps with
    HookWork := fun _ _ _ => Except.error (Err.errorsNew "hook failed"),
    Nudge := fun _ _ _ => Except.error (Err.errorsNew "nudge failed") }

/-- The mock with `Stop` failing. -/
def stopFailOps : SessionOps :=
  { mockSessionOps with
    Stop := fun _ _ _ => Except.error (Err.errorsNew "stop failed") }

/-- The mock with `Start` failing. -/
def startFailOps : SessionOps :=
  { mockSessionOps with
    Start := fun _ _ _ => Except.error (Err.errorsNew "start failed") }

/-- The swap request of the `swapper_test.go` scenarios. -/
def reqT : SwapRequest :=
  { RigName := "gastown", PolecatName := "Toast",
    OldProfile := "anthropic_acctA", NewProfile := "anthropic_acctB",
    HookedWork := "gt-123", Reason := "rate_limit" }

/-- Witness for `swap_error_discipline`: a failing hook and nudge leave
the swap successful, and a failing stop is fatal with a wrapped error. -/
theorem swap_error_discipline_witness :
    ((Swapper.Swap hookFailOps ctxBackground 0 reqT).1.Success = true ∧
      (Swapper.Swap hookFailOps ctxBackground 0 reqT).1.Error = none) ∧
    ((Swapper.Swap stopFailOps ctxBackground 0 reqT).1.Success = false ∧
      (Swapper.Swap stopFailOps ctxBackground 0 reqT).1.Error =
        some (Err.wrap "stopping old session" (Err.errorsNew "stop failed"))) := by
  constructor
  · exact (swap_error_discipline hookFailOps ctxBackground 0 reqT rfl rfl).2.2.2
      true "gt-gastown-Toast" rfl (fun _ => rfl) rfl
  · have h := (swap_error_discipline stopFailOps ctxBackground 0 reqT rfl rfl).2.1
      (Err.errorsNew "stop failed") rfl rfl
    exact ⟨h.1, h.2.1⟩

/-! ## `src/unnamed/part_003`: the Handler

The `Logger` calls are embedded as a list of structured entries (level,
message, alternating key/value pairs as a pair list); `EmitSwapEvent`
(called by the handler but not defined under `src/`) is embedded as the
list of `(request, result)` pairs it is invoked with.  Time rendering
(`Format(time.RFC3339)`) is modelled as an opaque rendering of the
instant; only the field keys matter to the claims. -/

/-- Log levels of the `Logger` interface. -/
inductive LogLevel where
  | info
  | warn
  | error
deriving DecidableEq, Repr

/-- One structured log call. -/
structure LogEntry where
  level : LogLevel
  msg : String
  fields : List (String × String)
deriving DecidableEq, Repr

/-- Rendering of a `time.Time` for log fields (`Format(time.RFC3339)`). -/
def formatRFC3339 (t : Int) : String := toString t

/-- `HandleExitResult`. -/
structure HandleExitResult where
  WasRateLimit : Bool := false
  Event : Option RateLimitEvent := none
  SwapAttempted : Bool := false
  SwapResult : Option SwapResult := none
  AllProfilesCooling : Bool := false
  Error : Option Err := none
deriving DecidableEq, Repr

/-- `PolecatExitInfo`. -/
structure PolecatExitInfo where
  RigName : String
  PolecatName : String
  ExitCode : Int
  Stderr : String
  CurrentProfile : String
  Provider : String
  HookedWork : String
deriving DecidableEq, Repr

/-- The detector configured by the handler via `SetAgentInfo` (step 1 of
`HandlePolecatExit`). -/
def handlerDetector (info : PolecatExitInfo) : HandlerFile.Detector :=
  { agentID := info.RigName ++ "/" ++ info.PolecatName,
    profile := info.CurrentProfile,
    provider := info.Provider }

/-- The INFO entry of `logRateLimitEvent`. -/
def rateLimitLogEntry (event : RateLimitEvent) : LogEntry :=
  { level := LogLevel.info, msg := "rate limit detected",
    fields := [("agent", event.AgentID), ("profile", event.Profile),
               ("provider", event.Provider), ("exit_code", toString event.ExitCode),
               ("timestamp", formatRFC3339 event.Timestamp),
               ("error", event.ErrorSnippet)] }

/-- The ERROR entry of `alertNoProfilesAvailable`. -/
def allCoolingLogEntry (info : PolecatExitInfo) (event : RateLimitEvent) : LogEntry :=
  { level := LogLevel.error, msg := "all profiles cooling - agent cannot continue",
    fields := [("rig", info.RigName), ("polecat", info.PolecatName),
               ("last_profile", event.Profile),
               ("rate_limit_time", formatRFC3339 event.Timestamp),
               ("hooked_work", info.HookedWork)] }

/-- The observable outcome of one `HandlePolecatExit` call: the returned
result, the selector state afterwards, the log entries, the controller
call trace and the `EmitSwapEvent` invocations. -/
structure HandlerOut where
  result : HandleExitResult
  selector : SelectorFile.Selector
  logs : List LogEntry
  calls : List CallRec
  emitted : List (SwapRequest × SwapResult)
deriving DecidableEq, Repr

/-- `Handler.HandlePolecatExit` from `src/unnamed/part_003`: configure the
detector, detect (return an empty result when not a rate limit), log the
event at INFO, select the next profile for role `polecat` (special-casing
`ErrAllProfilesCooling` via `errors.Is`, wrapping any other selector
error), then build the swap request with reason `rate_limit`, run the
swap, wrap a swap error, and emit the audit event in both swap outcomes.
`Detect` returns an event exactly when it returns true, so the wildcard
row covers the not-a-rate-limit return. -/
def Handler.HandlePolecatExit (ops : SessionOps) (sel : SelectorFile.Selector) (ctx : Ctx)
    (now : Int) (info : PolecatExitInfo) : HandlerOut :=
  match HandlerFile.Detector.Detect (handlerDetector info) now info.ExitCode info.Stderr with
  | (some event, true) =>
    match SelectorFile.Selector.SelectNext sel now "polecat" info.CurrentProfile
        (some event) with
    | (sel1, Except.error err) =>
      if err.is ErrAllProfilesCooling then
        { result := { WasRateLimit := true, Event := some event,
                      AllProfilesCooling := true },
          selector := sel1,
          logs := [rateLimitLogEntry event, allCoolingLogEntry info event],
          calls := [], emitted := [] }
      else
        { result := { WasRateLimit := true, Event := some event,
                      Error := some (Err.wrap "selecting fallback profile" err) },
          selector := sel1, logs := [rateLimitLogEntry event],
          calls := [], emitted := [] }
    | (sel1, Except.ok newProfile) =>
      let swapReq : SwapRequest :=
        { RigName := info.RigName, PolecatName := info.PolecatName,
          OldProfile := info.CurrentProfile, NewProfile := newProfile,
          HookedWork := info.HookedWork, Reason := "rate_limit" }
      let sres := Swapper.Swap ops ctx now swapReq
      { result := { WasRateLimit := true, Event := some event, SwapAttempted := true,
                    SwapResult := some sres.1,
                    Error := match sres.2.1 with
                             | some e => some (Err.wrap "swapping session" e)
                             | none => none },
        selector := sel1, logs := [rateLimitLogEntry event],
        calls := sres.2.2, emitted := [(swapReq, sres.1)] }
  | _ =>
    { result := {}, selector := sel, logs := [], calls := [], emitted := [] }

/-! ## Claim C8 -/

/-- C8: when the exit is detected as a rate limit and `SelectNext` fails
with `ErrAllProfilesCooling`, the handler reports
`wasRateLimit = true`, `allProfilesCooling = true`,
`swapAttempted = false`, performs no controller call and emits no swap
event, and logs exactly one ERROR entry, whose fields are
`rig, polecat, last_profile, rate_limit_time, hooked_work`. -/
theorem handler_all_cooling (ops : SessionOps) (sel : SelectorFile.Selector) (ctx : Ctx)
    (now : Int) (info : PolecatExitInfo) (event : RateLimitEvent)
    (hdet : HandlerFile.Detector.Detect (handlerDetector info) now info.ExitCode info.Stderr
      = (some event, true))
    (hsel : (SelectorFile.Selector.SelectNext sel now "polecat" info.CurrentProfile
      (some event)).2 = Except.error ErrAllProfilesCooling) :
    (Handler.HandlePolecatExit ops sel ctx now info).result.WasRateLimit = true ∧
    (Handler.HandlePolecatExit ops sel ctx now info).result.AllProfilesCooling = true ∧
    (Handler.HandlePolecatExit ops sel ctx now info).result.SwapAttempted = false ∧
    (Handler.HandlePolecatExit ops sel ctx now info).calls = [] ∧
    (Handler.HandlePolecatExit ops sel ctx now info).emitted = [] ∧
    ((Handler.HandlePolecatExit ops sel ctx now info).logs.filter
        (fun l => l.level == LogLevel.error)).map (fun l => l.fields.map Prod.fst) =
      [["rig", "polecat", "last_profile", "rate_limit_time", "hooked_work"]] := by
  unfold Handler.HandlePolecatExit
  rw [hdet]
  dsimp only
  rcases hS : SelectorFile.Selector.SelectNext sel now "polecat" info.CurrentProfile
    (some event) with ⟨sel1, res⟩
  rw [hS] at hsel
  simp only at hsel
  subst hsel
  simp [Err.is, ErrAllProfilesCooling, rateLimitLogEntry, allCoolingLogEntry]

/-- The selector of the all-cooling scenario: one-profile chain `[A]`. -/
def selAll : SelectorFile.Selector :=
  { policies := [("polecat", { FallbackChain := ["A"], CooldownMinutes := 5 })],
    cooldowns := [] }

/-- A two-profile selector on which selection succeeds. -/
def selOk : SelectorFile.Selector :=
  { policies := [("polecat", { FallbackChain := ["A", "B"], CooldownMinutes := 5 })],
    cooldowns := [] }

/-- A rate-limited exit (exit code 2) of polecat `Toast` on profile `A`. -/
def infoW : PolecatExitInfo :=
  { RigName := "gastown", PolecatName := "Toast", ExitCode := 2, Stderr := "",
    CurrentProfile := "A", Provider := "anthropic", HookedWork := "gt-9" }

/-- The event the detector produces for `infoW` at instant 0. -/
def evW : RateLimitEvent :=
  { AgentID := "gastown/Toast", Profile := "A", Timestamp := 0, ExitCode := 2,
    ErrorSnippet := "", Provider := "anthropic" }

/-- Witness for `handler_all_cooling`: the one-profile selector cools its
only profile and escalates. -/
theorem handler_all_cooling_witness :
    (Handler.HandlePolecatExit mockSessionOps selAll ctxBackground 0 infoW).result.AllProfilesCooling
        = true ∧
      (Handler.HandlePolecatExit mockSessionOps selAll ctxBackground 0 infoW).calls = [] := by
  have h := handler_all_cooling mockSessionOps selAll ctxBackground 0 infoW evW
    (by decide) (by decide)
  exact ⟨h.2.1, h.2.2.2.1⟩

/-! ## Claim C9 -/

theorem swapFromStart_event (ops : SessionOps) (ctx : Ctx) (now : Int) (req : SwapRequest)
    (t : List CallRec) :
    ((Swapper.swapFromStart ops ctx now req t).1.Event.isSome =
        (Swapper.swapFromStart ops ctx now req t).1.Success) ∧
      (∀ ev, (Swapper.swapFromStart ops ctx now req t).1.Event = some ev →
        ev.RigName = req.RigName ∧ ev.PolecatName = req.PolecatName ∧
        ev.OldProfile = req.OldProfile ∧ ev.NewProfile = req.NewProfile ∧
        ev.Reason = req.Reason ∧ ev.HookedWork = req.HookedWork ∧
        ev.NewSessionID = (Swapper.swapFromStart ops ctx now req t).1.NewSessionID) := by
  unfold Swapper.swapFromStart
  cases ctx.err2 with
  | some e => simp [failResult]
  | none =>
    cases ops.Start req.RigName req.PolecatName req.NewProfile with
    | error e => simp [failResult]
    | ok sid =>
      refine ⟨by simp, ?_⟩
      intro ev hev
      simp only [Option.some.injEq] at hev
      subst hev
      simp

theorem swap_event_iff_success (ops : SessionOps) (ctx : Ctx) (now : Int) (req : SwapRequest) :
    ((Swapper.Swap ops ctx now req).1.Event.isSome = (Swapper.Swap ops ctx now req).1.Success) ∧
      (∀ ev, (Swapper.Swap ops ctx now req).1.Event = some ev →
        ev.RigName = req.RigName ∧ ev.PolecatName = req.PolecatName ∧
        ev.OldProfile = req.OldProfile ∧ ev.NewProfile = req.NewProfile ∧
        ev.Reason = req.Reason ∧ ev.HookedWork = req.HookedWork ∧
        ev.NewSessionID = (Swapper.Swap ops ctx now req).1.NewSessionID) := by
  unfold Swapper.Swap
  cases ctx.err1 with
  | some e => simp [failResult]
  | none =>
    cases ops.IsRunning req.RigName req.PolecatName with
    | error e => simp [failResult]
    | ok running =>
      cases running with
      | false => simpa using swapFromStart_event ops ctx now req _
      | true =>
        cases ops.Stop req.RigName req.PolecatName false with
        | error e => simp [failResult]
        | ok u => simpa using swapFromStart_event ops ctx now req _

/-- C9 counterexample: a failed swap (start error) whose returned
`SwapResult` carries no audit `SwapEvent` — the `Event` field is only
populated on the success path. -/
theorem swap_event_counterexample :
    (Swapper.Swap startFailOps ctxBackground 0 reqT).2.1 ≠ none ∧
      (Swapper.Swap startFailOps ctxBackground 0 reqT).1.Event = none := by
  constructor
  · decide
  · decide

/-- C9 (amended): when an exit is detected and selection returns a
profile, the handler attempts the swap and invokes `EmitSwapEvent`
exactly once, with the constructed request and the very `SwapResult` the
swap returned (whether it succeeded or failed), attaching that result to
the outcome; and for every request, the `SwapResult` of `Swap` carries a
populated audit `SwapEvent` (with the request fields and the new session
id) exactly when the swap succeeded — on failure the `Event` field is
nil. -/
theorem swap_audit (ops : SessionOps) (sel : SelectorFile.Selector) (ctx : Ctx)
    (now : Int) (info : PolecatExitInfo) (event : RateLimitEvent) (p : String)
    (hdet : HandlerFile.Detector.Detect (handlerDetector info) now info.ExitCode info.Stderr
      = (some event, true))
    (hsel : (SelectorFile.Selector.SelectNext sel now "polecat" info.CurrentProfile
      (some event)).2 = Except.ok p) :
    ((Handler.HandlePolecatExit ops sel ctx now info).result.SwapAttempted = true ∧
      (Handler.HandlePolecatExit ops sel ctx now info).emitted =
        [({ RigName := info.RigName, PolecatName := info.PolecatName,
            OldProfile := info.CurrentProfile, NewProfile := p,
            HookedWork := info.HookedWork, Reason := "rate_limit" },
          (Swapper.Swap ops ctx now
            { RigName := info.RigName, PolecatName := info.PolecatName,
              OldProfile := info.CurrentProfile, NewProfile := p,
              HookedWork := info.HookedWork, Reason := "rate_limit" }).1)] ∧
      (Handler.HandlePolecatExit ops sel ctx now info).result.SwapResult =
        some (Swapper.Swap ops ctx now
          { RigName := info.RigName, PolecatName := info.PolecatName,
            OldProfile := info.CurrentProfile, NewProfile := p,
            HookedWork := info.HookedWork, Reason := "rate_limit" }).1) ∧
    (∀ req, (Swapper.Swap ops ctx now req).1.Event.isSome =
        (Swapper.Swap ops ctx now req).1.Success ∧
      (∀ ev, (Swapper.Swap ops ctx now req).1.Event = some ev →
        ev.RigName = req.RigName ∧ ev.PolecatName = req.PolecatName ∧
        ev.OldProfile = req.OldProfile ∧ ev.NewProfile = req.NewProfile ∧
        ev.Reason = req.Reason ∧ ev.HookedWork = req.HookedWork ∧
        ev.NewSessionID = (Swapper.Swap ops ctx now req).1.NewSessionID)) := by
  constructor
  · unfold Handler.HandlePolecatExit
    rw [hdet]
    dsimp only
    rcases hS : SelectorFile.Selector.SelectNext sel now "polecat" info.CurrentProfile
      (some event) with ⟨sel1, res⟩
    rw [hS] at hsel
    simp only at hsel
    subst hsel
    simp
  · intro req
    exact swap_event_iff_success ops ctx now req

/-- Witness for `swap_audit`: the two-profile selector selects `B` and
the mock swap succeeds; exactly one audit emission happens. -/
theorem swap_audit_witness :
    (Handler.HandlePolecatExit mockSessionOps selOk ctxBackground 0 infoW).emitted.length
      = 1 := by
  have h := swap_audit mockSessionOps selOk ctxBackground 0 infoW evW "B"
    (by decide) (by decide)
  rw [h.1.2.1]
  rfl

end Gastown
